import Mathlib

/-!
Shallow embedding of the badcapt classification-and-export pipeline
(package `badcapt`, file `badcapt.go`): the marker abstraction, record
construction (`NewRecord`), the export backends (`exportScreen`,
`exportElastic`), the configuration builders (`New`, `NewConfig`, the
option functions) and the per-packet dispatcher (`Badcapt.handle`).

External collaborators are modelled abstractly:
* a `gopacket.Packet` is reduced to the layers the code inspects
  (IPv4 header, TCP header, UDP header, application payload, capture
  timestamp);
* the elastic client is reduced to the three operations the code calls
  (`IndexExists(..).Do`, `CreateIndex(..).Do`, `Index()...Do`), each an
  abstract response function;
* side effects (console writes, index calls, log lines) are made explicit
  as call traces returned alongside each function's result.
-/

namespace BadcaptSpec

/-- Model of `net.IP`: a byte sequence. -/
abbrev IP := List Nat

/-- The fields of `layers.IPv4` read by the code. -/
structure IPv4Layer where
  SrcIP : IP
  DstIP : IP
deriving DecidableEq

/-- The fields of `layers.TCP` read by the code (ports are `uint16`). -/
structure TCPLayer where
  SrcPort : Nat
  DstPort : Nat
deriving DecidableEq

/-- The fields of `layers.UDP` read by the code. -/
structure UDPLayer where
  SrcPort : Nat
  DstPort : Nat
deriving DecidableEq

/-- Model of a parsed `gopacket.Packet`: each layer access used by the code
(`p.Layer(layers.LayerTypeIPv4)`, `p.Layer(layers.LayerTypeTCP)`,
`p.Layer(layers.LayerTypeUDP)`, `p.ApplicationLayer()`, and
`p.Metadata().CaptureInfo.Timestamp`) is a field; `none` models a nil layer. -/
structure Packet where
  ip4 : Option IPv4Layer
  tcp : Option TCPLayer
  udp : Option UDPLayer
  appPayload : Option (List Nat)
  timestamp : Nat
deriving DecidableEq

/-- `type Marker func(gopacket.Packet) []string`. -/
abbrev Marker := Packet → List String

/-- `type SeriesMarker func(...gopacket.Packet) []string`: the variadic
argument is a packet sequence. -/
abbrev SeriesMarker := List Packet → List String

/-- Modelled from the spec: the concrete body of the Mirai signature
detector is out of scope ("opaque plug-ins consumed through the marker
contract"); only its identity as a registered default marker matters here. -/
def MiraiIdentifier : Marker := fun _ => []

/-- Modelled from the spec: the concrete body of the Zmap signature
detector is out of scope; only its identity as a default marker matters. -/
def ZmapIdentifier : Marker := fun _ => []

/-- Modelled from the spec: the concrete body of the Masscan signature
detector is out of scope; only its identity as a default marker matters. -/
def MasscanIdentifier : Marker := fun _ => []

/-- `var defaultMarkers = []Marker{MiraiIdentifier, ZmapIdentifier, MasscanIdentifier}` -/
def defaultMarkers : List Marker :=
  [MiraiIdentifier, ZmapIdentifier, MasscanIdentifier]

/-- `var defaultSeriesMarkers = []SeriesMarker{}` -/
def defaultSeriesMarkers : List SeriesMarker := []

/-- `const indexName = "badcapt"` -/
def indexName : String := "badcapt"

/-- `const docType = "bcrecord"` -/
def docType : String := "bcrecord"

/-- `type Record struct {...}`: packet data ready to be exported. -/
structure Record where
  SrcIP : IP
  TransportProto : String
  SrcPort : Nat
  DstIP : IP
  DstPort : Nat
  Timestamp : Nat
  Tags : List String
  Payload : List Nat
  PayloadString : String
deriving DecidableEq

/-- `type TaggedPacket struct { Packet gopacket.Packet; Tags []string }` -/
structure TaggedPacket where
  Packet : Packet
  Tags : List String
deriving DecidableEq

/-- `func unpackIPv4(p gopacket.Packet) *layers.IPv4`: returns the IPv4
layer of the packet, or nil when absent. -/
def unpackIPv4 (p : Packet) : Option IPv4Layer := p.ip4

/-- `func unpackTCP(p gopacket.Packet) *layers.TCP`. -/
def unpackTCP (p : Packet) : Option TCPLayer := p.tcp

/-- Go's `string(payload)`: the byte slice viewed as a string. -/
def bytesToString (bs : List Nat) : String :=
  String.mk (bs.map Char.ofNat)

/-- `func NewRecord(tp *TaggedPacket) (*Record, error)`: requires an IPv4
layer, then inspects the transport layers with TCP taking precedence over
UDP, then reads the optional application payload. -/
def NewRecord (tp : TaggedPacket) : Except String Record :=
  match unpackIPv4 tp.Packet with
  | none => Except.error "not ip4 type packet"
  | some ip4 =>
    let udpLayer := tp.Packet.udp
    let tcpLayer := tp.Packet.tcp
    let portsTransport : Except String (Nat × Nat × String) :=
      match tcpLayer with
      | some tcp => Except.ok (tcp.SrcPort, tcp.DstPort, "tcp")
      | none =>
        match udpLayer with
        | some udp => Except.ok (udp.SrcPort, udp.DstPort, "udp")
        | none => Except.error "nor tcp nor udp type packet"
    match portsTransport with
    | Except.error e => Except.error e
    | Except.ok (srcPort, dstPort, transport) =>
      let payload : List Nat :=
        match tp.Packet.appPayload with
        | none => []
        | some bs => bs
      Except.ok {
        SrcIP := ip4.SrcIP
        DstIP := ip4.DstIP
        SrcPort := srcPort
        DstPort := dstPort
        Timestamp := tp.Packet.timestamp
        Payload := payload
        PayloadString := bytesToString payload
        Tags := tp.Tags
        TransportProto := transport }

/-- Abstract model of the elastic client: each operation the code performs
on `*elastic.Client` is a response function (`Except` models the `error`
return of the corresponding `...Do(ctx)` call). -/
structure ElasticClient where
  existsDo : String → Except String Bool
  createDo : String → Except String Unit
  indexDo : String → String → Record → Except String Unit

/-- One observable external call made by the pipeline (console write,
index provisioning, or document indexing). -/
inductive Call where
  | consoleWrite (record : Record)
  | indexExists (name : String)
  | createIndex (name : String)
  | indexDoc (index : String) (doc : String) (record : Record)
deriving DecidableEq

/-- `type Badcapt struct {...}`: the badcapt configuration. The unused
`cache *fastcache.Cache` handle is modelled as an opaque optional value. -/
structure Badcapt where
  client : Option ElasticClient
  indexName : String
  docType : String
  markers : List Marker
  seriesMarkers : List SeriesMarker
  cache : Option Nat
  cacheSize : Int

/-- `func exportScreen(record *Record) error`: marshals the record to JSON
and prints one line to standard output (marshaling a `Record` cannot fail).
The emitted line is recorded as a `consoleWrite` call. -/
def exportScreen (record : Record) : Except String Unit × List Call :=
  (Except.ok (), [Call.consoleWrite record])

/-- `func (b *Badcapt) exportElastic(ctx, record) error`: one document
indexing call under the configured index name and doc type. -/
def Badcapt.exportElastic (b : Badcapt) (client : ElasticClient)
    (record : Record) : Except String Unit × List Call :=
  (client.indexDo b.indexName b.docType record,
   [Call.indexDoc b.indexName b.docType record])

/-- `func (b *Badcapt) export(ctx, tp *TaggedPacket) error`: builds the
record, then writes it to the console when no client is set, else indexes
it. A record-construction error is returned before either backend runs. -/
def Badcapt.export (b : Badcapt) (tp : TaggedPacket) :
    Except String Unit × List Call :=
  match NewRecord tp with
  | Except.error err => (Except.error err, [])
  | Except.ok record =>
    match b.client with
    | none => exportScreen record
    | some client => b.exportElastic client record

/-- The tag aggregation inside `Badcapt.handle`: every marker is run over
the packet and the results are appended in registration order, then every
series marker is invoked (on the single-packet sequence `[p]`, matching the
variadic call `sfn(p)`). -/
def Badcapt.applyTags (b : Badcapt) (p : Packet) : List String :=
  (b.markers.map (fun fn => fn p)).flatten
    ++ (b.seriesMarkers.map (fun sfn => sfn [p])).flatten

/-- `func (b *Badcapt) handle(p gopacket.Packet) error`: aggregates tags;
when none matched it returns nil without exporting, otherwise it exports
the tagged packet and propagates any error. -/
def Badcapt.handle (b : Badcapt) (p : Packet) :
    Except String Unit × List Call :=
  let tags := b.applyTags p
  if tags.length = 0 then
    (Except.ok (), [])
  else
    b.export { Packet := p, Tags := tags }

/-- The per-packet goroutine body inside `Badcapt.Listen`: runs `handle`
and logs the returned error, if any, via `log.Println`. The first component
is the list of emitted log lines. -/
def Badcapt.handleTask (b : Badcapt) (p : Packet) : List String × List Call :=
  match b.handle p with
  | (Except.error e, calls) => ([e], calls)
  | (Except.ok _, calls) => ([], calls)

/-- A configuration option `func(*Badcapt) error`, modelled functionally. -/
abbrev BadcaptOption := Badcapt → Except String Badcapt

/-- `func AddPacketMarker(m Marker) func(*Badcapt) error`: appends a packet
marking routine. -/
def AddPacketMarker (m : Marker) : BadcaptOption :=
  fun b => Except.ok { b with markers := b.markers ++ [m] }

/-- `func SetElastic(client *elastic.Client) func(*Badcapt) error`. -/
def SetElastic (client : ElasticClient) : BadcaptOption :=
  fun b => Except.ok { b with client := some client }

/-- `func SetElasticIndexName(name string) func(*Badcapt) error`. -/
def SetElasticIndexName (name : String) : BadcaptOption :=
  fun b => Except.ok { b with indexName := name }

/-- `func SetElasticDocType(doc string) func(*Badcapt) error`. -/
def SetElasticDocType (doc : String) : BadcaptOption :=
  fun b => Except.ok { b with docType := doc }

/-- `func SetCacheSize(size int) func(*Badcapt) error`. -/
def SetCacheSize (size : Int) : BadcaptOption :=
  fun b => Except.ok { b with cacheSize := size }

/-- The option-application loop of `New`: options run in order, the first
error aborts construction. -/
def applyOpts : List BadcaptOption → Badcapt → Except String Badcapt
  | [], b => Except.ok b
  | f :: fs, b =>
    match f b with
    | Except.error e => Except.error e
    | Except.ok b' => applyOpts fs b'

/-- The configuration literal built at the top of `New`: unnamed Go struct
fields take their zero values (nil slices, nil cache pointer, 0 size). -/
def newDefaultConf : Badcapt :=
  { client := none
    indexName := indexName
    docType := docType
    markers := defaultMarkers
    seriesMarkers := []
    cache := none
    cacheSize := 0 }

/-- `func New(opts ...func(*Badcapt) error) (*Badcapt, error)`: applies the
options to the default configuration, and when an elastic client was set,
checks whether the index named by the package constant `indexName` exists
and creates it when absent. The second component is the trace of elastic
calls made during construction. -/
def New (opts : List BadcaptOption) : Except String Badcapt × List Call :=
  match applyOpts opts newDefaultConf with
  | Except.error e => (Except.error e, [])
  | Except.ok conf =>
    match conf.client with
    | none => (Except.ok conf, [])
    | some client =>
      match client.existsDo indexName with
      | Except.error e => (Except.error e, [Call.indexExists indexName])
      | Except.ok true => (Except.ok conf, [Call.indexExists indexName])
      | Except.ok false =>
        match client.createDo indexName with
        | Except.error e =>
          (Except.error e,
           [Call.indexExists indexName, Call.createIndex indexName])
        | Except.ok _ =>
          (Except.ok conf,
           [Call.indexExists indexName, Call.createIndex indexName])

/-- `func NewConfig(elasticLoc string, markers ...Marker)` (deprecated):
the elastic client construction is external, so the successfully created
client is taken as input. The configuration literal sets only the client,
index name and doc type; the marker parameter is consulted only by the
final `if len(markers) == 0` fallback to the defaults — a non-empty marker
argument is never assigned. -/
def NewConfig (client : ElasticClient) (markers : List Marker) :
    Except String Badcapt × List Call :=
  let conf : Badcapt :=
    { client := some client
      indexName := indexName
      docType := docType
      markers := []
      seriesMarkers := []
      cache := none
      cacheSize := 0 }
  let finalize : Badcapt :=
    if markers.length = 0 then { conf with markers := defaultMarkers }
    else conf
  match client.existsDo indexName with
  | Except.error e => (Except.error e, [Call.indexExists indexName])
  | Except.ok true => (Except.ok finalize, [Call.indexExists indexName])
  | Except.ok false =>
    match client.createDo indexName with
    | Except.error e =>
      (Except.error e,
       [Call.indexExists indexName, Call.createIndex indexName])
    | Except.ok _ =>
      (Except.ok finalize,
       [Call.indexExists indexName, Call.createIndex indexName])

/-! Section: Panic-aware model of the dispatcher

A Go function value may panic. The dispatcher `Badcapt.handle` installs no
`defer`/`recover`, so a panic raised inside a marker propagates out of
`handle` (and, raised inside an unsupervised goroutine, aborts the
process). To reason about that behaviour the marker types are refined so
that `none` models a panic, and `handle` is re-traced with Go's
propagation semantics; `handlePanics` is field-for-field the same control
flow as `Badcapt.handle`, with panics made explicit. -/

/-- A marker that may panic: `none` models a Go panic during `fn(p)`. -/
abbrev MarkerPanics := Packet → Option (List String)

/-- A series marker that may panic. -/
abbrev SeriesMarkerPanics := List Packet → Option (List String)

/-- The first marker loop of `handle` (`for _, fn := range b.markers`)
under panic semantics: tags are appended in order until a marker panics,
at which point the panic propagates (no `recover` exists in `handle`). -/
def runMarkersPanics : List MarkerPanics → Packet → Option (List String)
  | [], _ => some []
  | fn :: rest, p =>
    match fn p with
    | none => none
    | some ts =>
      match runMarkersPanics rest p with
      | none => none
      | some acc => some (ts ++ acc)

/-- The series-marker loop of `handle` under panic semantics. -/
def runSeriesPanics : List SeriesMarkerPanics → Packet → Option (List String)
  | [], _ => some []
  | sfn :: rest, p =>
    match sfn [p] with
    | none => none
    | some ts =>
      match runSeriesPanics rest p with
      | none => none
      | some acc => some (ts ++ acc)

/-- `Badcapt.handle` with marker panics made explicit: the marker lists of
`b` are replaced by panic-capable ones; a result of `none` is an uncaught
panic escaping `handle`. The export path is unchanged (taken from `b`). -/
def handlePanics (b : Badcapt) (markersP : List MarkerPanics)
    (seriesP : List SeriesMarkerPanics) (p : Packet) :
    Option (Except String Unit × List Call) :=
  match runMarkersPanics markersP p with
  | none => none
  | some tags1 =>
    match runSeriesPanics seriesP p with
    | none => none
    | some tags2 =>
      let tags := tags1 ++ tags2
      if tags.length = 0 then
        some (Except.ok (), [])
      else
        some (b.export { Packet := p, Tags := tags })

/-! Section: Concrete fixtures used by witnesses and counterexamples -/

/-- A TCP SYN-like packet: `10.0.0.5:51413 -> 203.0.113.9:23`, carrying a
spurious UDP layer as well, to exercise the TCP-over-UDP precedence. -/
def pTcpUdp : Packet :=
  { ip4 := some { SrcIP := [10, 0, 0, 5], DstIP := [203, 0, 113, 9] }
    tcp := some { SrcPort := 51413, DstPort := 23 }
    udp := some { SrcPort := 1111, DstPort := 2222 }
    appPayload := none
    timestamp := 1700000000 }

/-- A UDP-only packet. -/
def pUdpOnly : Packet :=
  { ip4 := some { SrcIP := [192, 0, 2, 1], DstIP := [198, 51, 100, 7] }
    tcp := none
    udp := some { SrcPort := 53, DstPort := 40000 }
    appPayload := some [104, 105]
    timestamp := 1700000001 }

/-- A packet with no IPv4 layer. -/
def pNoIp : Packet :=
  { ip4 := none
    tcp := some { SrcPort := 1, DstPort := 2 }
    udp := none
    appPayload := none
    timestamp := 1700000002 }

/-- An IPv4 packet with neither TCP nor UDP (e.g. ICMP). -/
def pIcmp : Packet :=
  { ip4 := some { SrcIP := [10, 0, 0, 1], DstIP := [10, 0, 0, 2] }
    tcp := none
    udp := none
    appPayload := none
    timestamp := 1700000003 }

/-- A marker that tags every packet `"masscan"`. -/
def tagAllMarker : Marker := fun _ => ["masscan"]

/-- An elastic client whose index-existence check reports every index
present. -/
def clientAllExist : ElasticClient :=
  { existsDo := fun _ => Except.ok true
    createDo := fun _ => Except.ok ()
    indexDo := fun _ _ _ => Except.ok () }

/-- An elastic client whose index-existence check reports every index
absent, and whose calls all succeed. -/
def clientNoneExist : ElasticClient :=
  { existsDo := fun _ => Except.ok false
    createDo := fun _ => Except.ok ()
    indexDo := fun _ _ _ => Except.ok () }

/-- A console configuration whose only marker tags every packet. -/
def bTagConsole : Badcapt := { newDefaultConf with markers := [tagAllMarker] }

/-- The configuration `NewConfig` returns when called with the existing
index and one caller-supplied marker: its marker list stays empty. -/
def confNewConfigDropped : Badcapt :=
  { client := some clientAllExist
    indexName := indexName
    docType := docType
    markers := []
    seriesMarkers := []
    cache := none
    cacheSize := 0 }

/-- A configuration with a cache handle and a nonzero cache size. -/
def bCacheA : Badcapt := { newDefaultConf with cache := some 1, cacheSize := 100 }

/-- A configuration without a cache handle and another cache size. -/
def bCacheB : Badcapt := { newDefaultConf with cache := none, cacheSize := 7 }

/-- The configuration `New` produces from a single `AddPacketMarker` option. -/
def bWithTag : Badcapt :=
  { newDefaultConf with markers := defaultMarkers ++ [tagAllMarker] }

/-- The configuration `New` produces from
`[SetElastic clientNoneExist, SetElasticIndexName "custom"]`. -/
def confCustom : Badcapt :=
  { newDefaultConf with client := some clientNoneExist, indexName := "custom" }

/-- A marker that panics on every packet. -/
def panicMarker : MarkerPanics := fun _ => none

/-- A panic-capable marker that tags every packet `"mirai"` and never
panics. -/
def miraiTagPanics : MarkerPanics := fun _ => some ["mirai"]

/-- A console configuration whose only marker tags every packet `"mirai"`;
the behaviour the dispatcher would have if a panicking marker were treated
as producing no tags. -/
def bMiraiOnly : Badcapt :=
  { newDefaultConf with markers := [fun _ => ["mirai"]] }

/-- The record `NewRecord` builds from `pTcpUdp` tagged `["mirai"]`. -/
def rMirai : Record :=
  { SrcIP := [10, 0, 0, 5]
    DstIP := [203, 0, 113, 9]
    SrcPort := 51413
    DstPort := 23
    Timestamp := 1700000000
    Tags := ["mirai"]
    Payload := []
    PayloadString := ""
    TransportProto := "tcp" }

end BadcaptSpec

namespace BadcaptSpec

/-! Section: Helper lemmas -/

/-- Applying a list of `AddPacketMarker` options appends the markers in
order and changes nothing else. -/
theorem applyOpts_addMarkers (ms : List Marker) (b : Badcapt) :
    applyOpts (ms.map AddPacketMarker) b =
      Except.ok { b with markers := b.markers ++ ms } := by
  induction ms generalizing b with
  | nil => simp [applyOpts]
  | cons m rest ih =>
    simp [applyOpts, AddPacketMarker, ih, List.append_assoc]

/-- If some marker in the list panics on `p`, the marker loop of the
dispatcher panics on `p`. -/
theorem runMarkersPanics_none (p : Packet) (m : MarkerPanics)
    (msP : List MarkerPanics) (hm : m ∈ msP) (hp : m p = none) :
    runMarkersPanics msP p = none := by
  induction msP with
  | nil => cases hm
  | cons fn rest ih =>
    rcases List.mem_cons.mp hm with h1 | h2
    · subst h1
      unfold runMarkersPanics
      rw [hp]
    · unfold runMarkersPanics
      rw [ih h2]
      cases fn p <;> rfl

/-! Section: The claims -/

/-- C1: for every packet, if the aggregated tag set produced by running
all registered markers and series markers over it is empty, `handle`
returns success, builds no `Record`, and makes no export call (neither a
console write nor an index call): a `TaggedPacket` with an empty tag set
is never forwarded to export. -/
theorem handle_empty_tags_no_export (b : Badcapt) (p : Packet)
    (h : b.applyTags p = []) :
    b.handle p = (Except.ok (), []) := by
  unfold Badcapt.handle
  simp [h]

/-- Witness for C1 at the default configuration and an ICMP packet. -/
theorem handle_empty_tags_no_export_witness :
    newDefaultConf.applyTags pIcmp = [] ∧
    newDefaultConf.handle pIcmp = (Except.ok (), []) :=
  ⟨rfl, handle_empty_tags_no_export newDefaultConf pIcmp rfl⟩

/-- C2: for every tagged packet with IPv4 and TCP layers, record
construction succeeds with transport exactly `"tcp"` and ports from the
TCP header, even when a UDP layer is also present (TCP precedence); with
only a UDP layer, transport is exactly `"udp"` and ports come from the UDP
header — exactly one transport layer populates the record. -/
theorem newRecord_transport_precedence (tp : TaggedPacket) :
    (∀ ip4 tcp, tp.Packet.ip4 = some ip4 → tp.Packet.tcp = some tcp →
      ∃ r, NewRecord tp = Except.ok r ∧ r.TransportProto = "tcp" ∧
        r.SrcPort = tcp.SrcPort ∧ r.DstPort = tcp.DstPort) ∧
    (∀ ip4 udp, tp.Packet.ip4 = some ip4 → tp.Packet.tcp = none →
      tp.Packet.udp = some udp →
      ∃ r, NewRecord tp = Except.ok r ∧ r.TransportProto = "udp" ∧
        r.SrcPort = udp.SrcPort ∧ r.DstPort = udp.DstPort) := by
  constructor
  · intro ip4 tcp h1 h2
    unfold NewRecord unpackIPv4
    rw [h1, h2]
    exact ⟨_, rfl, rfl, rfl, rfl⟩
  · intro ip4 udp h1 h2 h3
    unfold NewRecord unpackIPv4
    rw [h1, h2, h3]
    exact ⟨_, rfl, rfl, rfl, rfl⟩

/-- Witness for C2: the TCP branch on a packet that also carries a UDP
layer, and the UDP branch on a UDP-only packet. -/
theorem newRecord_transport_precedence_witness :
    (∃ r, NewRecord { Packet := pTcpUdp, Tags := ["masscan"] } = Except.ok r ∧
      r.TransportProto = "tcp" ∧ r.SrcPort = 51413 ∧ r.DstPort = 23) ∧
    (∃ r, NewRecord { Packet := pUdpOnly, Tags := ["x"] } = Except.ok r ∧
      r.TransportProto = "udp" ∧ r.SrcPort = 53 ∧ r.DstPort = 40000) :=
  ⟨(newRecord_transport_precedence { Packet := pTcpUdp, Tags := ["masscan"] }).1
      { SrcIP := [10, 0, 0, 5], DstIP := [203, 0, 113, 9] }
      { SrcPort := 51413, DstPort := 23 } rfl rfl,
   (newRecord_transport_precedence { Packet := pUdpOnly, Tags := ["x"] }).2
      { SrcIP := [192, 0, 2, 1], DstIP := [198, 51, 100, 7] }
      { SrcPort := 53, DstPort := 40000 } rfl rfl rfl⟩

/-- C3: for every tagged packet without an IPv4 layer, record construction
fails with the unsupported-network-layer error, and export returns that
error having made no backend call. -/
theorem newRecord_no_ip4 (b : Badcapt) (tp : TaggedPacket)
    (h : tp.Packet.ip4 = none) :
    NewRecord tp = Except.error "not ip4 type packet" ∧
    b.export tp = (Except.error "not ip4 type packet", []) := by
  have h1 : NewRecord tp = Except.error "not ip4 type packet" := by
    unfold NewRecord unpackIPv4
    rw [h]
  refine ⟨h1, ?_⟩
  unfold Badcapt.export
  rw [h1]

/-- Witness for C3 on a non-IPv4 packet. -/
theorem newRecord_no_ip4_witness :
    NewRecord { Packet := pNoIp, Tags := ["t"] } =
      Except.error "not ip4 type packet" ∧
    newDefaultConf.export { Packet := pNoIp, Tags := ["t"] } =
      (Except.error "not ip4 type packet", []) :=
  newRecord_no_ip4 newDefaultConf _ rfl

/-- C4: for every tagged packet with an IPv4 layer but neither TCP nor
UDP, record construction fails with the unsupported-transport error, and
export returns that error having made no backend call. -/
theorem newRecord_no_transport (b : Badcapt) (tp : TaggedPacket)
    (ip4 : IPv4Layer) (h1 : tp.Packet.ip4 = some ip4)
    (h2 : tp.Packet.tcp = none) (h3 : tp.Packet.udp = none) :
    NewRecord tp = Except.error "nor tcp nor udp type packet" ∧
    b.export tp = (Except.error "nor tcp nor udp type packet", []) := by
  have hr : NewRecord tp = Except.error "nor tcp nor udp type packet" := by
    unfold NewRecord unpackIPv4
    rw [h1, h2, h3]
  refine ⟨hr, ?_⟩
  unfold Badcapt.export
  rw [hr]

/-- Witness for C4 on an ICMP-like packet. -/
theorem newRecord_no_transport_witness :
    NewRecord { Packet := pIcmp, Tags := ["t"] } =
      Except.error "nor tcp nor udp type packet" ∧
    newDefaultConf.export { Packet := pIcmp, Tags := ["t"] } =
      (Except.error "nor tcp nor udp type packet", []) :=
  newRecord_no_transport newDefaultConf _ _ rfl rfl rfl

/-- C5 counterexample: `NewConfig` called with a caller-supplied marker
yields a configuration whose marker list is empty — the supplied marker is
dropped and the defaults are not installed either, so the registered
sequence is not "defaults plus caller-supplied additions". -/
theorem newConfig_drops_supplied_markers :
    (NewConfig clientAllExist [tagAllMarker]).1 =
      Except.ok confNewConfigDropped ∧
    confNewConfigDropped.markers = [] ∧
    confNewConfigDropped.markers ≠ defaultMarkers ++ [tagAllMarker] := by
  refine ⟨rfl, rfl, ?_⟩
  intro h
  have hlen := congrArg List.length h
  simp [defaultMarkers, confNewConfigDropped] at hlen

/-- C5 (amended): for every configuration built by `New` from
`AddPacketMarker` options, the registered marker sequence is the default
markers followed by all caller-supplied additions in order, there are no
series markers, and the dispatcher's aggregation concatenates each
registered marker's tags in registration order. (`NewConfig`, by contrast,
drops a non-empty caller-supplied marker list.) -/
theorem new_markers_defaults_plus_additions (ms : List Marker) (b : Badcapt)
    (p : Packet)
    (h : (New (ms.map AddPacketMarker)).1 = Except.ok b) :
    b.markers = defaultMarkers ++ ms ∧
    b.seriesMarkers = [] ∧
    b.applyTags p = ((defaultMarkers ++ ms).map (fun fn => fn p)).flatten := by
  have hNew : (New (ms.map AddPacketMarker)).1 =
      Except.ok { newDefaultConf with markers := defaultMarkers ++ ms } := by
    unfold New
    rw [applyOpts_addMarkers]
    rfl
  rw [hNew] at h
  obtain rfl : b = { newDefaultConf with markers := defaultMarkers ++ ms } :=
    (Except.ok.injEq _ _).mp h.symm
  refine ⟨rfl, rfl, ?_⟩
  simp [Badcapt.applyTags, newDefaultConf]

/-- Witness for the amended C5 with one added marker. -/
theorem new_markers_defaults_plus_additions_witness :
    bWithTag.markers = defaultMarkers ++ [tagAllMarker] ∧
    bWithTag.seriesMarkers = [] ∧
    bWithTag.applyTags pTcpUdp =
      ((defaultMarkers ++ [tagAllMarker]).map (fun fn => fn pTcpUdp)).flatten :=
  new_markers_defaults_plus_additions [tagAllMarker] bWithTag pTcpUdp rfl

/-- C6 counterexample: with the index name overridden to `"custom"` and a
client reporting every index absent, `New` succeeds with
`indexName = "custom"` yet its provisioning calls check and create
`"badcapt"`, the package constant — no creation call is ever made for the
configured name. -/
theorem new_provisioning_ignores_override :
    (New [SetElastic clientNoneExist, SetElasticIndexName "custom"]).1 =
      Except.ok confCustom ∧
    confCustom.indexName = "custom" ∧
    (New [SetElastic clientNoneExist, SetElasticIndexName "custom"]).2 =
      [Call.indexExists "badcapt", Call.createIndex "badcapt"] ∧
    Call.createIndex "custom" ∉
      (New [SetElastic clientNoneExist, SetElasticIndexName "custom"]).2 := by
  refine ⟨rfl, rfl, rfl, ?_⟩
  decide

/-- C6 (amended): whenever the options succeed and leave an elastic client
set, construction makes exactly one index-existence call, on the fixed
package constant `"badcapt"`; exactly one creation call follows — also on
`"badcapt"` — precisely when the check reports the index absent, and none
when it reports it present. Construction makes no document-indexing call,
and the configured index-name override affects only where
`exportElastic` indexes documents. -/
theorem new_provisioning_uses_constant_name (opts : List BadcaptOption)
    (conf : Badcapt) (client : ElasticClient)
    (h : applyOpts opts newDefaultConf = Except.ok conf)
    (hc : conf.client = some client) :
    (New opts).2 =
      Call.indexExists indexName ::
        (match client.existsDo indexName with
         | Except.ok false => [Call.createIndex indexName]
         | _ => []) ∧
    (∀ idx d r, Call.indexDoc idx d r ∉ (New opts).2) ∧
    (∀ record, (conf.exportElastic client record).2 =
      [Call.indexDoc conf.indexName conf.docType record]) := by
  have hNew : New opts =
      match client.existsDo indexName with
      | Except.error e => (Except.error e, [Call.indexExists indexName])
      | Except.ok true => (Except.ok conf, [Call.indexExists indexName])
      | Except.ok false =>
        match client.createDo indexName with
        | Except.error e =>
          (Except.error e,
           [Call.indexExists indexName, Call.createIndex indexName])
        | Except.ok _ =>
          (Except.ok conf,
           [Call.indexExists indexName, Call.createIndex indexName]) := by
    unfold New
    rw [h]
    dsimp only
    rw [hc]
  refine ⟨?_, ?_, fun record => rfl⟩
  · rw [hNew]
    rcases hE : client.existsDo indexName with e | b
    · rfl
    · cases b
      · rcases hC : client.createDo indexName with e | u <;> rfl
      · rfl
  · intro idx d r
    rw [hNew]
    rcases hE : client.existsDo indexName with e | b
    · simp
    · cases b
      · rcases hC : client.createDo indexName with e | u <;> simp
      · simp

/-- Witness for the amended C6: the override scenario, where the
provisioning trace names only the constant index. -/
theorem new_provisioning_uses_constant_name_witness :
    (New [SetElastic clientNoneExist, SetElasticIndexName "custom"]).2 =
      Call.indexExists indexName ::
        (match clientNoneExist.existsDo indexName with
         | Except.ok false => [Call.createIndex indexName]
         | _ => []) :=
  (new_provisioning_uses_constant_name
      [SetElastic clientNoneExist, SetElasticIndexName "custom"]
      confCustom clientNoneExist rfl rfl).1

/-- C7 counterexample: a panic in the first marker escapes the dispatcher
(`handle` has no `recover`): the second marker's `"mirai"` tag is never
aggregated and nothing is exported, whereas treating the panicking marker
as "no tags" would have exported the record — the dispatch result differs
from what recovery would produce. -/
theorem marker_panic_aborts_dispatch :
    handlePanics newDefaultConf [panicMarker, miraiTagPanics] [] pTcpUdp =
      none ∧
    bMiraiOnly.handle pTcpUdp =
      (Except.ok (), [Call.consoleWrite rMirai]) ∧
    handlePanics newDefaultConf [panicMarker, miraiTagPanics] [] pTcpUdp ≠
      some (bMiraiOnly.handle pTcpUdp) := by
  exact ⟨rfl, rfl, fun hcon => Option.noConfusion hcon⟩

/-- C7 (amended): a panic raised inside one marker during dispatch
propagates uncaught out of the dispatcher: the evaluation is aborted, so
no recovery happens, no tags are aggregated for the packet and no export
occurs. -/
theorem marker_panic_propagates (b : Badcapt) (msP : List MarkerPanics)
    (sP : List SeriesMarkerPanics) (p : Packet) (m : MarkerPanics)
    (hm : m ∈ msP) (hp : m p = none) :
    handlePanics b msP sP p = none := by
  unfold handlePanics
  rw [runMarkersPanics_none p m msP hm hp]

/-- Witness for the amended C7: a single always-panicking marker. -/
theorem marker_panic_propagates_witness :
    handlePanics newDefaultConf [panicMarker] [] pTcpUdp = none :=
  marker_panic_propagates newDefaultConf [panicMarker] [] pTcpUdp
    panicMarker (List.mem_singleton.mpr rfl) rfl

/-- C8 counterexample: a tagged packet without an IPv4 layer produces no
export call, but it is not silently dropped — the construction error comes
back out of `handle` and the capture loop's per-packet task logs it. -/
theorem unclassifiable_packet_is_logged :
    bTagConsole.handleTask pNoIp = (["not ip4 type packet"], []) ∧
    ["not ip4 type packet"] ≠ ([] : List String) := by
  exact ⟨rfl, by decide⟩

/-- C8 (amended): for every tagged packet whose record construction fails
because a required layer is missing, the packet is dropped from export (no
backend call), but not silently: the construction error is returned by the
dispatcher and logged by the capture loop's per-packet task. -/
theorem construction_error_logged_not_exported (b : Badcapt) (p : Packet)
    (e : String) (h1 : b.applyTags p ≠ [])
    (h2 : NewRecord { Packet := p, Tags := b.applyTags p } =
      Except.error e) :
    b.handleTask p = ([e], []) := by
  have hlen : ¬ (b.applyTags p).length = 0 := by
    simpa [List.length_eq_zero] using h1
  unfold Badcapt.handleTask Badcapt.handle
  simp only [hlen, if_false, Badcapt.export, h2]

/-- Witness for the amended C8 on a tagged non-IPv4 packet. -/
theorem construction_error_logged_not_exported_witness :
    bTagConsole.handleTask pNoIp = (["not ip4 type packet"], []) ∧
    bTagConsole.applyTags pNoIp ≠ [] :=
  ⟨construction_error_logged_not_exported bTagConsole pNoIp
      "not ip4 type packet" (by decide) rfl,
   by decide⟩

/-- C9: the cache handle and the cache-size value (set by `SetCacheSize`)
are never consulted by classification or export: two configurations that
agree on every field except `cache` and `cacheSize` produce identical
dispatcher results, export results, and call traces on every packet. -/
theorem cache_fields_unused (b1 b2 : Badcapt)
    (hc : b1.client = b2.client) (hi : b1.indexName = b2.indexName)
    (hd : b1.docType = b2.docType) (hm : b1.markers = b2.markers)
    (hs : b1.seriesMarkers = b2.seriesMarkers) :
    (∀ p, b1.handle p = b2.handle p) ∧
    (∀ tp, b1.export tp = b2.export tp) ∧
    (∀ p, b1.handleTask p = b2.handleTask p) := by
  obtain ⟨c1, i1, d1, m1, s1, ca1, cs1⟩ := b1
  obtain ⟨c2, i2, d2, m2, s2, ca2, cs2⟩ := b2
  dsimp only at hc hi hd hm hs
  subst hc; subst hi; subst hd; subst hm; subst hs
  exact ⟨fun p => rfl, fun tp => rfl, fun p => rfl⟩

/-- Witness for C9: two configurations differing only in cache handle and
cache size behave identically on a concrete packet. -/
theorem cache_fields_unused_witness :
    bCacheA.handle pTcpUdp = bCacheB.handle pTcpUdp :=
  (cache_fields_unused bCacheA bCacheB rfl rfl rfl rfl rfl).1 pTcpUdp

/-- C10: `New` with zero options succeeds with a nil elastic client (so
the console backend is used), exactly the three default markers, no series
markers, the default index name and doc type, and an empty provisioning
trace. -/
theorem new_no_options_defaults :
    New [] = (Except.ok newDefaultConf, []) ∧
    newDefaultConf.client = none ∧
    newDefaultConf.markers =
      [MiraiIdentifier, ZmapIdentifier, MasscanIdentifier] ∧
    newDefaultConf.seriesMarkers = [] ∧
    newDefaultConf.indexName = "badcapt" ∧
    newDefaultConf.docType = "bcrecord" :=
  ⟨rfl, rfl, rfl, rfl, rfl, rfl⟩

end BadcaptSpec
